import Mathlib

set_option autoImplicit false

namespace PgrxShim

/-! Shallow embedding of the pgrx C shim layer (pgx-cshim.c, pgx-pg-sys/cshim/pgx-cshim.c,
pgrx-pg-sys/cshim/pgrx-cshim.c, bridge-c-shim.c, pg-shim.c): the error signal bridge,
row deconstruction, spinlock forwarding and the memory-context lookup.  Host (PostgreSQL)
primitives that are not part of this repository are modelled from the spec and marked so. -/

/-- A printf-style variadic argument as passed by the shim's calls to `elog`, `errmsg`,
`errdetail` and `errcontext_msg`: either a string (`%s`) or an int (`%d`). -/
inductive FmtArg where
  | s (v : String)
  | d (v : Int)
deriving DecidableEq, Repr

/-- Model of C `printf`-style formatting as used by the host's message routines:
`%s` consumes a string argument verbatim, `%d` renders an int argument, `%%` is a
literal percent sign, every other character is copied.  A directive with no matching
argument is copied literally (the defined fragment of otherwise-undefined behaviour). -/
def runFmt : List Char → List FmtArg → List Char
  | [], _ => []
  | '%' :: 's' :: rest, FmtArg.s v :: args => v.data ++ runFmt rest args
  | '%' :: 'd' :: rest, FmtArg.d v :: args => (toString v).data ++ runFmt rest args
  | '%' :: '%' :: rest, args => '%' :: runFmt rest args
  | c :: rest, args => c :: runFmt rest args

/-- Apply `runFmt` to a format string and arguments. -/
def formatStr (fmt : String) (args : List FmtArg) : String :=
  ⟨runFmt fmt.data args⟩

/-- PostgreSQL error level `ERROR` (`elog.h`, PG11-PG13): the divergence threshold.
Levels at or above it never return control to the caller. -/
def ERROR : Int := 20

/-- PostgreSQL error level `WARNING`: the highest level that still returns. -/
def WARNING : Int := 19

/-- PostgreSQL error level `NOTICE`. -/
def NOTICE : Int := 18

/-- PostgreSQL error level `PANIC`. -/
def PANIC : Int := 22

/-- One log record as durably emitted by the host's reporting sink: the
severity, the error-category code, the formatted message, the optional detail and
context lines, and the host's location metadata (source file/line recorded with
the report, when it carries caller-supplied provenance). -/
structure LogRecord where
  level : Int
  code : Int
  message : String
  detail : Option String
  context : Option String
  locFile : Option String
  locLine : Option Int
deriving DecidableEq, Repr

/-- The observable outcome of one call into the error bridge: either the call
returns control to the caller, or it diverges into the host's unwind; in both
cases it carries the list of log records emitted during the call. -/
inductive Outcome where
  | ret (log : List LogRecord)
  | diverged (log : List LogRecord)
deriving DecidableEq, Repr

/-- The log records emitted by a call, whether it returned or diverged. -/
def Outcome.log : Outcome → List LogRecord
  | .ret l => l
  | .diverged l => l

/-- `true` iff the call returned control to the caller, i.e. iff code sequenced
after the call executes. -/
def Outcome.returnsControl : Outcome → Bool
  | .ret _ => true
  | .diverged _ => false

/-- The semantically-owned text of every emitted record: message, detail and
context — excluding the host-appended location/formatting metadata. -/
def Outcome.msgDetCtx (o : Outcome) : List (String × Option String × Option String) :=
  o.log.map fun r => (r.message, r.detail, r.context)

/-- Modelled from the spec: the host's `errstart` begins an error report.  Per the
spec exactly one log record is produced per `raise` call, so the report is always
admitted. -/
def errstart (_level : Int) : Bool := true

/-- Modelled from the spec: the host's `errfinish` flushes the accumulated error
data as exactly one log record and then diverges (transfers control into the
host's own abort/unwind machinery, never returning to the caller) iff the
severity is at or above the divergence threshold `ERROR`. -/
def errfinish (r : LogRecord) : Outcome :=
  if ERROR ≤ r.level then Outcome.diverged [r] else Outcome.ret [r]

/-- Modelled from the spec: the host's `elog` macro: format the message, emit one
record with no code/detail/context, diverge iff the level is at or above `ERROR`. -/
def elog (level : Int) (fmt : String) (args : List FmtArg) : Outcome :=
  errfinish { level := level, code := 0, message := formatStr fmt args,
              detail := none, context := none, locFile := none, locLine := none }

/-- The structured diagnostic descriptor received by the eight-argument
`pgx_ereport(level, code, message, detail, funcname, file, lineno, context)` of
pgx-pg-sys/cshim/pgx-cshim.c; the nullable `detail`/`context` pointers are
`Option`s. -/
structure ErrorDescriptor where
  level : Int
  code : Int
  message : String
  detail : Option String
  context : Option String
  funcname : String
  file : String
  lineno : Int
deriving DecidableEq, Repr

/-- Embedding of `pgx_elog` (pgx-pg-sys/cshim/pgx-cshim.c lines 41-44):
`elog(level, "%s", message)`. -/
def pgx_elog (level : Int) (message : String) : Outcome :=
  elog level "%s" [FmtArg.s message]

/-- Embedding of `pgx_elog_error` (pgx-pg-sys/cshim/pgx-cshim.c lines 46-49):
`elog(ERROR, "%s", message)`. -/
def pgx_elog_error (message : String) : Outcome :=
  elog ERROR "%s" [FmtArg.s message]

/-- Embedding of `pg_rs_bridge_elog` (bridge-c-shim.c lines 13-15 and
pg-shim.c lines 11-13): `elog(level, "%s", message)`. -/
def pg_rs_bridge_elog (level : Int) (message : String) : Outcome :=
  elog level "%s" [FmtArg.s message]

/-- Embedding of `pg_rs_bridge_elog_error` (bridge-c-shim.c lines 17-19):
`elog(ERROR, "%s", message)`. -/
def pg_rs_bridge_elog_error (message : String) : Outcome :=
  elog ERROR "%s" [FmtArg.s message]

/-- Embedding of the PG11/PG12 epoch path of `pgx_ereport`
(pgx-pg-sys/cshim/pgx-cshim.c lines 60-79, the `HAVE__BUILTIN_CONSTANT_P`
branch): `errstart(level, file, lineno, funcname, NULL)` captures severity and
location, then one of four `errfinish(level, errcode(code), errmsg("%s", message),
...)` calls according to which of `detail`/`context` are non-NULL. -/
def pgx_ereport_pg12 (d : ErrorDescriptor) : Outcome :=
  if errstart d.level then
    let base : LogRecord :=
      { level := d.level, code := d.code,
        message := formatStr "%s" [FmtArg.s d.message],
        detail := none, context := none,
        locFile := some d.file, locLine := some d.lineno }
    match d.detail, d.context with
    | some det, some ctx =>
        errfinish { base with detail := some (formatStr "%s" [FmtArg.s det]),
                              context := some (formatStr "%s" [FmtArg.s ctx]) }
    | some det, none =>
        errfinish { base with detail := some (formatStr "%s" [FmtArg.s det]) }
    | none, some ctx =>
        errfinish { base with context := some (formatStr "%s" [FmtArg.s ctx]) }
    | none, none =>
        errfinish base
  else Outcome.ret []

/-- Embedding of the PG13+ epoch path of `pgx_ereport`
(pgx-pg-sys/cshim/pgx-cshim.c lines 101-116, the `HAVE__BUILTIN_CONSTANT_P`
branch): `pg_prevent_errno_in_scope()` saves the errno side channel (no effect on
the emitted record), `errstart(level, NULL)`, then the flattened sequence
`errcode(code); errmsg("%s", message);` with optional `errdetail`/`errcontext_msg`,
then `errfinish(file, lineno, funcname)` which attaches the location metadata and
flushes. -/
def pgx_ereport_pg13 (d : ErrorDescriptor) : Outcome :=
  if errstart d.level then
    let r1 : LogRecord :=
      { level := d.level, code := d.code,
        message := formatStr "%s" [FmtArg.s d.message],
        detail := none, context := none, locFile := none, locLine := none }
    let r2 :=
      match d.detail with
      | some det => { r1 with detail := some (formatStr "%s" [FmtArg.s det]) }
      | none => r1
    let r3 :=
      match d.context with
      | some ctx => { r2 with context := some (formatStr "%s" [FmtArg.s ctx]) }
      | none => r2
    errfinish { r3 with locFile := some d.file, locLine := some d.lineno }
  else Outcome.ret []

/-- Embedding of the PG11/PG12 epoch path of `pgx_ereport` compiled without
`HAVE__BUILTIN_CONSTANT_P` (pgx-pg-sys/cshim/pgx-cshim.c lines 81-98).  It is the
same four-way shape as `pgx_ereport_pg12` except that on line 84 (both `detail`
and `context` present) the call is `errcontext_msg(context)`: the caller-supplied
context is passed as the format string itself, with no arguments, instead of as
an argument to a fixed `"%s"`. -/
def pgx_ereport_pg12_noBCP (d : ErrorDescriptor) : Outcome :=
  if errstart d.level then
    let base : LogRecord :=
      { level := d.level, code := d.code,
        message := formatStr "%s" [FmtArg.s d.message],
        detail := none, context := none,
        locFile := some d.file, locLine := some d.lineno }
    match d.detail, d.context with
    | some det, some ctx =>
        errfinish { base with detail := some (formatStr "%s" [FmtArg.s det]),
                              context := some (formatStr ctx []) }
    | some det, none =>
        errfinish { base with detail := some (formatStr "%s" [FmtArg.s det]) }
    | none, some ctx =>
        errfinish { base with context := some (formatStr "%s" [FmtArg.s ctx]) }
    | none, none =>
        errfinish base
  else Outcome.ret []

/-- Modelled from the spec (GCC semantics of `__builtin_constant_p`): the
builtin evaluates to true only for an expression whose value is a compile-time
literal constant; the `level` reaching the exported, externally-called shim is a
runtime function parameter, so at that call site it evaluates to false. -/
def builtin_constant_p_runtime_level : Bool := false

/-- The guard at pgx-pg-sys/cshim/pgx-cshim.c lines 77-79 (and 114-116):
`if (__builtin_constant_p(level) && level >= ERROR) pg_unreachable();` — the
point after `errfinish` is marked unreachable exactly when this condition holds. -/
def postFinishMarkedUnreachable (constp : Bool) (level : Int) : Bool :=
  constp && decide (ERROR ≤ level)

/-- `__FILE__` of the old-surface shim translation unit (pgx-cshim/pgx-cshim.c):
the plain `ereport` macro there records the shim's own fixed source location as the
report's location metadata, which carries no caller-supplied provenance. -/
def shimFile : String := "pgx-cshim.c"

/-- `__FILE__` of bridge-c-shim.c, analogously. -/
def bridgeShimFile : String := "bridge-c-shim.c"

/-- Embedding of the older six-argument `pgx_ereport(level, code, message, file,
lineno, colno)` (pgx-cshim/pgx-cshim.c lines 27-32):
`ereport(level, (errcode(code), errmsg("%s", message),
errcontext_msg("%s:%d:%d", file, lineno, colno)))`.  There is no detail channel;
the caller-supplied provenance is folded into the context text; the `ereport`
macro's own location metadata is the shim file's fixed `__FILE__`/`__LINE__`. -/
def pgx_ereport_v0 (level code : Int) (message file : String) (lineno colno : Int) : Outcome :=
  if errstart level then
    errfinish
      { level := level, code := code,
        message := formatStr "%s" [FmtArg.s message],
        detail := none,
        context := some (formatStr "%s:%d:%d" [FmtArg.s file, FmtArg.d lineno, FmtArg.d colno]),
        locFile := some shimFile, locLine := some 29 }
  else Outcome.ret []

/-- Embedding of `pg_rs_bridge_ereport` (bridge-c-shim.c lines 21-25): identical
body to the six-argument `pgx_ereport`, at its own fixed source location. -/
def pg_rs_bridge_ereport (level code : Int) (message file : String) (lineno colno : Int) : Outcome :=
  if errstart level then
    errfinish
      { level := level, code := code,
        message := formatStr "%s" [FmtArg.s message],
        detail := none,
        context := some (formatStr "%s:%d:%d" [FmtArg.s file, FmtArg.d lineno, FmtArg.d colno]),
        locFile := some bridgeShimFile, locLine := some 22 }
  else Outcome.ret []

/-! ### Spinlock forwarding -/

/-- Host shared memory holding spinlocks: each address holds `true` when the lock
there is held.  A lock handle is an address; two handles to the same lock are
equal addresses. -/
def LockStore : Type := Nat → Bool

/-- Modelled from the spec: the host's `SpinLockInit` primitive — initialise the
lock at the given address to free. -/
def SpinLockInit (σ : LockStore) (lock : Nat) : LockStore :=
  fun a => if a = lock then false else σ a

/-- Modelled from the spec: the host's `SpinLockAcquire` primitive — after it
returns, the lock at the given address is held. -/
def SpinLockAcquire (σ : LockStore) (lock : Nat) : LockStore :=
  fun a => if a = lock then true else σ a

/-- Modelled from the spec: the host's `SpinLockRelease` primitive — the lock at
the given address becomes free. -/
def SpinLockRelease (σ : LockStore) (lock : Nat) : LockStore :=
  fun a => if a = lock then false else σ a

/-- Modelled from the spec: the host's `SpinLockFree` primitive — `true` iff the
lock at the given address is not held. -/
def SpinLockFree (σ : LockStore) (lock : Nat) : Bool :=
  !(σ lock)

/-- Embedding of `pgx_SpinLockInit` (pgx-pg-sys/cshim/pgx-cshim.c lines 229-232):
the body is exactly `SpinLockInit(lock)`. -/
def pgx_SpinLockInit (σ : LockStore) (lock : Nat) : LockStore :=
  SpinLockInit σ lock

/-- Embedding of `pgx_SpinLockAcquire` (pgx-pg-sys/cshim/pgx-cshim.c lines
234-237): the body is exactly `SpinLockAcquire(lock)`. -/
def pgx_SpinLockAcquire (σ : LockStore) (lock : Nat) : LockStore :=
  SpinLockAcquire σ lock

/-- Embedding of `pgx_SpinLockRelease` (pgx-pg-sys/cshim/pgx-cshim.c lines
239-242): the body is exactly `SpinLockRelease(lock)`. -/
def pgx_SpinLockRelease (σ : LockStore) (lock : Nat) : LockStore :=
  SpinLockRelease σ lock

/-- Embedding of `pgx_SpinLockFree` (pgx-pg-sys/cshim/pgx-cshim.c lines 244-247):
the body is exactly `return SpinLockFree(lock)`. -/
def pgx_SpinLockFree (σ : LockStore) (lock : Nat) : Bool :=
  SpinLockFree σ lock

/-- Embedding of `pgrx_SpinLockInit` (pgrx-pg-sys/cshim/pgrx-cshim.c lines 51-54). -/
def pgrx_SpinLockInit (σ : LockStore) (lock : Nat) : LockStore :=
  SpinLockInit σ lock

/-- Embedding of `pgrx_SpinLockAcquire` (pgrx-pg-sys/cshim/pgrx-cshim.c lines 56-59). -/
def pgrx_SpinLockAcquire (σ : LockStore) (lock : Nat) : LockStore :=
  SpinLockAcquire σ lock

/-- Embedding of `pgrx_SpinLockRelease` (pgrx-pg-sys/cshim/pgrx-cshim.c lines 61-64). -/
def pgrx_SpinLockRelease (σ : LockStore) (lock : Nat) : LockStore :=
  SpinLockRelease σ lock

/-- Embedding of `pgrx_SpinLockFree` (pgrx-pg-sys/cshim/pgrx-cshim.c lines 66-69). -/
def pgrx_SpinLockFree (σ : LockStore) (lock : Nat) : Bool :=
  SpinLockFree σ lock

/-! ### Memory context resolver -/

/-- Modelled from the spec: the host state visible around a memory-context
lookup — the allocator's chunk metadata (each raw allocation address maps to the
`MemoryContext`, i.e. arena handle, owning it), together with the other host
state (locks, emitted log) that a pure lookup must leave untouched. -/
structure HostState where
  chunkOwner : Nat → Nat
  locks : LockStore
  log : List LogRecord

/-- Modelled from the spec: the host's `GetMemoryChunkContext` — a pure lookup
into the allocator metadata returning the owning arena of an allocation. -/
def GetMemoryChunkContext (σ : HostState) (ptr : Nat) : Nat :=
  σ.chunkOwner ptr

/-- Embedding of `pgx_GetMemoryContextChunk` (pgx-pg-sys/cshim/pgx-cshim.c lines
31-34 and pgx-cshim/pgx-cshim.c lines 12-15): the body is exactly
`return GetMemoryChunkContext(ptr);` — it reads, and leaves the host state as it
was. -/
def pgx_GetMemoryContextChunk (σ : HostState) (ptr : Nat) : Nat × HostState :=
  (GetMemoryChunkContext σ ptr, σ)

/-- Embedding of `pg_rs_bridge_GetMemoryContextChunk` (bridge-c-shim.c lines 9-11
and pg-shim.c lines 7-9): same body. -/
def pg_rs_bridge_GetMemoryContextChunk (σ : HostState) (ptr : Nat) : Nat × HostState :=
  (GetMemoryChunkContext σ ptr, σ)

/-! ### Row deconstruction -/

/-- The slice of `Form_pg_attribute` that `pgx_deconstruct_row_type` consults:
whether the column is marked dropped. -/
structure Form_pg_attribute where
  attisdropped : Bool
deriving DecidableEq, Repr

/-- The row-shape descriptor: its ordered column definitions.  `natts` is the
column count. -/
structure TupleDesc where
  atts : List Form_pg_attribute
deriving DecidableEq, Repr

/-- The column count `tupdesc->natts`. -/
def TupleDesc.natts (tupdesc : TupleDesc) : Nat :=
  tupdesc.atts.length

/-- Embedding of the loop of `pgx_deconstruct_row_type` (pgx-cshim/pgx-cshim.c
lines 90-100) at starting column index `i`.  `getattr attnum` stands for
`heap_getattr(tuple, attnum, tupdesc, &isnull)` on the fixed tuple built from the
packed row value: the host's byte-decoding routine, an arbitrary oracle here
because the bytes of the row value are arbitrary.  Output: the `columns` array,
the `nulls` array, and the trace of attribute numbers for which `heap_getattr`
was invoked. -/
def deconstructLoop (getattr : Nat → Int × Bool) :
    List Form_pg_attribute → Nat → List Int × List Bool × List Nat
  | [], _ => ([], [], [])
  | att :: rest, i =>
    let tail := deconstructLoop getattr rest (i + 1)
    if att.attisdropped then
      (0 :: tail.1, true :: tail.2.1, tail.2.2)
    else
      let r := getattr (i + 1)
      (r.1 :: tail.1, r.2 :: tail.2.1, (i + 1) :: tail.2.2)

/-- Embedding of `pgx_deconstruct_row_type` (pgx-cshim/pgx-cshim.c lines 72-104):
builds the temporary tuple from the packed row (absorbed into `getattr`), then
runs the decomposition loop over all `natts` columns starting at index 0. -/
def pgx_deconstruct_row_type (tupdesc : TupleDesc) (getattr : Nat → Int × Bool) :
    List Int × List Bool × List Nat :=
  deconstructLoop getattr tupdesc.atts 0

/-! ### Helper lemmas -/

/-- A string passed as the sole argument to the fixed `"%s"` format comes out
verbatim, whatever characters (including `%` directives) it contains. -/
theorem formatStr_s (m : String) : formatStr "%s" [FmtArg.s m] = m := by
  cases m with
  | mk l => simp [formatStr, runFmt]

/-- The `"%s:%d:%d"` format applied to a string and two ints. -/
theorem formatStr_sdd (f : String) (l c : Int) :
    formatStr "%s:%d:%d" [FmtArg.s f, FmtArg.d l, FmtArg.d c] =
      f ++ ":" ++ toString l ++ ":" ++ toString c := by
  cases f with
  | mk fl =>
    apply String.ext
    simp [formatStr, runFmt, String.data_append]

/-- `errfinish` emits exactly the one accumulated record, whether it returns or
diverges. -/
theorem errfinish_log (r : LogRecord) : (errfinish r).log = [r] := by
  unfold errfinish
  split <;> rfl

/-- `errfinish` returns control iff the severity is strictly below `ERROR`. -/
theorem errfinish_returnsControl (r : LogRecord) :
    (errfinish r).returnsControl = decide (r.level < ERROR) := by
  unfold errfinish
  split <;> rename_i hsplit <;> simp [Outcome.returnsControl] <;> omega

/-- The two epoch paths of `pgx_ereport` are extensionally equal on every
descriptor: the four-way attach-style PG11/PG12 shape and the flattened PG13+
shape accumulate the same record and finish identically. -/
theorem pgx_ereport_epochs_eq (d : ErrorDescriptor) :
    pgx_ereport_pg12 d = pgx_ereport_pg13 d := by
  cases hdet : d.detail <;> cases hctx : d.context <;>
    simp [pgx_ereport_pg12, pgx_ereport_pg13, errstart, hdet, hctx]

/-! ### Claim theorems -/

/-- C1: for every descriptor whose severity is at or above the divergence
threshold `ERROR`, the raise operation never returns control to the caller —
`pgx_ereport` on both epoch paths and `pgx_elog_error` (fixed `ERROR` severity)
all diverge, so code sequenced after the call never executes. -/
theorem raise_at_or_above_threshold_never_returns
    (d : ErrorDescriptor) (m : String) (h : ERROR ≤ d.level) :
    (pgx_ereport_pg12 d).returnsControl = false ∧
    (pgx_ereport_pg13 d).returnsControl = false ∧
    (pgx_elog_error m).returnsControl = false := by
  refine ⟨?_, ?_, ?_⟩
  · cases hdet : d.detail <;> cases hctx : d.context <;>
      simp [pgx_ereport_pg12, errstart, errfinish, hdet, hctx, h, Outcome.returnsControl]
  · cases hdet : d.detail <;> cases hctx : d.context <;>
      simp [pgx_ereport_pg13, errstart, errfinish, hdet, hctx, h, Outcome.returnsControl]
  · simp [pgx_elog_error, elog, errfinish, Outcome.returnsControl]

/-- C1 witness: a concrete `ERROR`-severity descriptor diverges on both paths,
as does `pgx_elog_error`. -/
theorem raise_at_or_above_threshold_never_returns_witness :
    ERROR ≤ (ErrorDescriptor.mk 20 0 "boom" none none "fn" "lib.rs" 7).level ∧
    ((pgx_ereport_pg12 (ErrorDescriptor.mk 20 0 "boom" none none "fn" "lib.rs" 7)).returnsControl = false ∧
     (pgx_ereport_pg13 (ErrorDescriptor.mk 20 0 "boom" none none "fn" "lib.rs" 7)).returnsControl = false ∧
     (pgx_elog_error "boom").returnsControl = false) :=
  ⟨by decide,
   raise_at_or_above_threshold_never_returns
     (ErrorDescriptor.mk 20 0 "boom" none none "fn" "lib.rs" 7) "boom" (by decide)⟩

/-- C2: for every descriptor strictly below the divergence threshold, the raise
operation returns normally and produces exactly one log record whose severity,
code, message, detail and context are the descriptor's fields verbatim — an
absent detail or context stays absent — on both epoch paths, for all four
presence combinations of the two optional fields (the `Option` fields cover all
four); likewise `pgx_elog` produces exactly one verbatim record. -/
theorem raise_below_threshold_returns_one_verbatim_record
    (d : ErrorDescriptor) (m : String) (h : d.level < ERROR) :
    pgx_ereport_pg12 d = Outcome.ret
      [{ level := d.level, code := d.code, message := d.message,
         detail := d.detail, context := d.context,
         locFile := some d.file, locLine := some d.lineno }] ∧
    pgx_ereport_pg13 d = Outcome.ret
      [{ level := d.level, code := d.code, message := d.message,
         detail := d.detail, context := d.context,
         locFile := some d.file, locLine := some d.lineno }] ∧
    pgx_elog d.level m = Outcome.ret
      [{ level := d.level, code := 0, message := m,
         detail := none, context := none, locFile := none, locLine := none }] := by
  have h' : ¬ ERROR ≤ d.level := not_le.mpr h
  refine ⟨?_, ?_, ?_⟩
  · cases hdet : d.detail <;> cases hctx : d.context <;>
      simp [pgx_ereport_pg12, errstart, errfinish, hdet, hctx, h', formatStr_s]
  · cases hdet : d.detail <;> cases hctx : d.context <;>
      simp [pgx_ereport_pg13, errstart, errfinish, hdet, hctx, h', formatStr_s]
  · simp [pgx_elog, elog, errfinish, h', formatStr_s]

/-- C2 witness: a concrete `WARNING` descriptor with both optional fields
present is logged verbatim and the call returns. -/
theorem raise_below_threshold_returns_one_verbatim_record_witness :
    (ErrorDescriptor.mk 19 0 "m" (some "d") (some "c") "fn" "lib.rs" 7).level < ERROR ∧
    (pgx_ereport_pg12 (ErrorDescriptor.mk 19 0 "m" (some "d") (some "c") "fn" "lib.rs" 7) =
       Outcome.ret [{ level := 19, code := 0, message := "m", detail := some "d",
                      context := some "c", locFile := some "lib.rs", locLine := some 7 }] ∧
     pgx_ereport_pg13 (ErrorDescriptor.mk 19 0 "m" (some "d") (some "c") "fn" "lib.rs" 7) =
       Outcome.ret [{ level := 19, code := 0, message := "m", detail := some "d",
                      context := some "c", locFile := some "lib.rs", locLine := some 7 }] ∧
     pgx_elog 19 "m" =
       Outcome.ret [{ level := 19, code := 0, message := "m", detail := none,
                      context := none, locFile := none, locLine := none }]) :=
  ⟨by decide,
   raise_below_threshold_returns_one_verbatim_record
     (ErrorDescriptor.mk 19 0 "m" (some "d") (some "c") "fn" "lib.rs" 7) "m" (by decide)⟩

/-- C3: for every descriptor, the PG11/PG12 start-then-finish path and the PG13+
errno-clearing flattened path of `pgx_ereport` produce identical logged message,
detail and context text and identical return-versus-diverge behaviour. -/
theorem pgx_ereport_epoch_paths_agree (d : ErrorDescriptor) :
    (pgx_ereport_pg12 d).msgDetCtx = (pgx_ereport_pg13 d).msgDetCtx ∧
    (pgx_ereport_pg12 d).returnsControl = (pgx_ereport_pg13 d).returnsControl := by
  rw [pgx_ereport_epochs_eq d]
  exact ⟨rfl, rfl⟩

/-- The columns array produced by the deconstruction loop has one entry per
attribute. -/
theorem deconstructLoop_length_cols (g : Nat → Int × Bool) :
    ∀ (atts : List Form_pg_attribute) (i : Nat),
      (deconstructLoop g atts i).1.length = atts.length
  | [], _ => rfl
  | att :: rest, i => by
    by_cases hd : att.attisdropped <;>
      simp [deconstructLoop, hd, deconstructLoop_length_cols g rest (i + 1)]

/-- The nulls array produced by the deconstruction loop has one entry per
attribute. -/
theorem deconstructLoop_length_nulls (g : Nat → Int × Bool) :
    ∀ (atts : List Form_pg_attribute) (i : Nat),
      (deconstructLoop g atts i).2.1.length = atts.length
  | [], _ => rfl
  | att :: rest, i => by
    by_cases hd : att.attisdropped <;>
      simp [deconstructLoop, hd, deconstructLoop_length_nulls g rest (i + 1)]

/-- Entry `j` of the columns array comes from column `j`: the placeholder `0`
when it is dropped, the decoded value for attribute number `i + j + 1`
otherwise. -/
theorem deconstructLoop_cols_get (g : Nat → Int × Bool) :
    ∀ (atts : List Form_pg_attribute) (i j : Nat),
      (deconstructLoop g atts i).1[j]? =
        (atts[j]?).map fun att => if att.attisdropped then 0 else (g (i + j + 1)).1
  | [], _, _ => by simp [deconstructLoop]
  | att :: rest, i, 0 => by
    by_cases hd : att.attisdropped <;> simp [deconstructLoop, hd]
  | att :: rest, i, j + 1 => by
    have ih := deconstructLoop_cols_get g rest (i + 1) j
    by_cases hd : att.attisdropped <;>
      simpa [deconstructLoop, hd, Nat.add_assoc, Nat.add_comm, Nat.add_left_comm] using ih

/-- Entry `j` of the nulls array comes from column `j`: `true` when it is
dropped, the decoded null flag for attribute number `i + j + 1` otherwise. -/
theorem deconstructLoop_nulls_get (g : Nat → Int × Bool) :
    ∀ (atts : List Form_pg_attribute) (i j : Nat),
      (deconstructLoop g atts i).2.1[j]? =
        (atts[j]?).map fun att => if att.attisdropped then true else (g (i + j + 1)).2
  | [], _, _ => by simp [deconstructLoop]
  | att :: rest, i, 0 => by
    by_cases hd : att.attisdropped <;> simp [deconstructLoop, hd]
  | att :: rest, i, j + 1 => by
    have ih := deconstructLoop_nulls_get g rest (i + 1) j
    by_cases hd : att.attisdropped <;>
      simpa [deconstructLoop, hd, Nat.add_assoc, Nat.add_comm, Nat.add_left_comm] using ih

/-- Every attribute number in the `heap_getattr` call trace of the
deconstruction loop belongs to a column that is not marked dropped. -/
theorem deconstructLoop_trace_sound (g : Nat → Int × Bool) :
    ∀ (atts : List Form_pg_attribute) (i k : Nat),
      k ∈ (deconstructLoop g atts i).2.2 →
      ∃ j att, atts[j]? = some att ∧ att.attisdropped = false ∧ k = i + j + 1
  | [], _, _ => by simp [deconstructLoop]
  | att :: rest, i, k => by
    intro hmem
    cases hd : att.attisdropped with
    | true =>
      simp [deconstructLoop, hd] at hmem
      obtain ⟨j, att', hj, hnd, hk⟩ := deconstructLoop_trace_sound g rest (i + 1) k hmem
      exact ⟨j + 1, att', by simpa using hj, hnd, by omega⟩
    | false =>
      simp [deconstructLoop, hd] at hmem
      rcases hmem with hk | hmem2
      · exact ⟨0, att, by simp, hd, by omega⟩
      · obtain ⟨j, att', hj, hnd, hk⟩ := deconstructLoop_trace_sound g rest (i + 1) k hmem2
        exact ⟨j + 1, att', by simpa using hj, hnd, by omega⟩

/-- C4: for every row-shape descriptor and every behaviour of the host's
byte-decoding routine (i.e. every packed row value), `pgx_deconstruct_row_type`
returns a values array and a nulls array each of length exactly the descriptor's
column count, and entry `j` of each array is determined by column `j` (decoded
as attribute number `j + 1` when not dropped) — the entries are in column
order. -/
theorem deconstruct_row_lengths_and_order (tupdesc : TupleDesc) (g : Nat → Int × Bool) :
    (pgx_deconstruct_row_type tupdesc g).1.length = tupdesc.natts ∧
    (pgx_deconstruct_row_type tupdesc g).2.1.length = tupdesc.natts ∧
    (∀ j, (pgx_deconstruct_row_type tupdesc g).1[j]? =
       (tupdesc.atts[j]?).map fun att => if att.attisdropped then 0 else (g (j + 1)).1) ∧
    (∀ j, (pgx_deconstruct_row_type tupdesc g).2.1[j]? =
       (tupdesc.atts[j]?).map fun att => if att.attisdropped then true else (g (j + 1)).2) := by
  refine ⟨deconstructLoop_length_cols g tupdesc.atts 0,
          deconstructLoop_length_nulls g tupdesc.atts 0, ?_, ?_⟩
  · intro j
    simpa using deconstructLoop_cols_get g tupdesc.atts 0 j
  · intro j
    simpa using deconstructLoop_nulls_get g tupdesc.atts 0 j

/-- C5: for every column marked dropped, `pgx_deconstruct_row_type` outputs the
placeholder value `0` and null flag `true` at that position and never invokes
the byte-decoding routine `heap_getattr` for that column's attribute number —
whatever the bytes of the row value (`g` is arbitrary). -/
theorem deconstruct_row_dropped_column_safe (tupdesc : TupleDesc) (g : Nat → Int × Bool)
    (j : Nat) (att : Form_pg_attribute)
    (hj : tupdesc.atts[j]? = some att) (hd : att.attisdropped = true) :
    (pgx_deconstruct_row_type tupdesc g).1[j]? = some 0 ∧
    (pgx_deconstruct_row_type tupdesc g).2.1[j]? = some true ∧
    (j + 1) ∉ (pgx_deconstruct_row_type tupdesc g).2.2 := by
  refine ⟨?_, ?_, ?_⟩
  · have := deconstructLoop_cols_get g tupdesc.atts 0 j
    simpa [pgx_deconstruct_row_type, hj, hd] using this
  · have := deconstructLoop_nulls_get g tupdesc.atts 0 j
    simpa [pgx_deconstruct_row_type, hj, hd] using this
  · intro hmem
    obtain ⟨j', att', hj', hnd, hk⟩ :=
      deconstructLoop_trace_sound g tupdesc.atts 0 (j + 1) hmem
    have hjj : j' = j := by omega
    subst hjj
    rw [hj] at hj'
    cases hj'
    rw [hd] at hnd
    cases hnd

/-- C5 witness: a three-column row shape whose middle column is dropped yields
placeholder/null there and its attribute number 2 is absent from the decode
trace. -/
theorem deconstruct_row_dropped_column_safe_witness :
    (TupleDesc.mk [⟨false⟩, ⟨true⟩, ⟨false⟩]).atts[1]? = some ⟨true⟩ ∧
    (Form_pg_attribute.mk true).attisdropped = true ∧
    ((pgx_deconstruct_row_type (TupleDesc.mk [⟨false⟩, ⟨true⟩, ⟨false⟩])
        (fun n => (Int.ofNat (10 * n), false))).1[1]? = some 0 ∧
     (pgx_deconstruct_row_type (TupleDesc.mk [⟨false⟩, ⟨true⟩, ⟨false⟩])
        (fun n => (Int.ofNat (10 * n), false))).2.1[1]? = some true ∧
     (1 + 1) ∉ (pgx_deconstruct_row_type (TupleDesc.mk [⟨false⟩, ⟨true⟩, ⟨false⟩])
        (fun n => (Int.ofNat (10 * n), false))).2.2) :=
  ⟨by decide, rfl,
   deconstruct_row_dropped_column_safe (TupleDesc.mk [⟨false⟩, ⟨true⟩, ⟨false⟩])
     (fun n => (Int.ofNat (10 * n), false)) 1 ⟨true⟩ (by decide) rfl⟩

/-- C6: the spinlock operations are exact one-to-one forwards of the host
primitives, and they preserve host-observable lock state: for any two handles to
the same lock, after `pgx_SpinLockAcquire` the lock observed through
`pgx_SpinLockFree` via the other handle is not free, after `pgx_SpinLockRelease`
(or `pgx_SpinLockInit`) it is free — likewise for the `pgrx_` wrappers — and each
wrapper is definitionally the host primitive itself (no added locking, queuing or
fairness). -/
theorem spinlock_forwarding_preserves_lock_state
    (σ : LockStore) (h h' : Nat) (heq : h' = h) :
    pgx_SpinLockFree (pgx_SpinLockAcquire σ h) h' = false ∧
    pgx_SpinLockFree (pgx_SpinLockRelease σ h) h' = true ∧
    pgx_SpinLockFree (pgx_SpinLockInit σ h) h' = true ∧
    pgrx_SpinLockFree (pgrx_SpinLockAcquire σ h) h' = false ∧
    pgrx_SpinLockFree (pgrx_SpinLockRelease σ h) h' = true ∧
    pgrx_SpinLockFree (pgrx_SpinLockInit σ h) h' = true ∧
    pgx_SpinLockInit = SpinLockInit ∧ pgx_SpinLockAcquire = SpinLockAcquire ∧
    pgx_SpinLockRelease = SpinLockRelease ∧ pgx_SpinLockFree = SpinLockFree ∧
    pgrx_SpinLockInit = SpinLockInit ∧ pgrx_SpinLockAcquire = SpinLockAcquire ∧
    pgrx_SpinLockRelease = SpinLockRelease ∧ pgrx_SpinLockFree = SpinLockFree := by
  subst heq
  refine ⟨?_, ?_, ?_, ?_, ?_, ?_, rfl, rfl, rfl, rfl, rfl, rfl, rfl, rfl⟩ <;>
    simp [pgx_SpinLockFree, pgx_SpinLockAcquire, pgx_SpinLockRelease, pgx_SpinLockInit,
          pgrx_SpinLockFree, pgrx_SpinLockAcquire, pgrx_SpinLockRelease, pgrx_SpinLockInit,
          SpinLockFree, SpinLockAcquire, SpinLockRelease, SpinLockInit]

/-- C6 witness: both handles at address 0 of an all-free store. -/
theorem spinlock_forwarding_preserves_lock_state_witness :
    (0 : Nat) = 0 ∧
    (pgx_SpinLockFree (pgx_SpinLockAcquire (fun _ => false) 0) 0 = false ∧
     pgx_SpinLockFree (pgx_SpinLockRelease (fun _ => false) 0) 0 = true ∧
     pgx_SpinLockFree (pgx_SpinLockInit (fun _ => false) 0) 0 = true ∧
     pgrx_SpinLockFree (pgrx_SpinLockAcquire (fun _ => false) 0) 0 = false ∧
     pgrx_SpinLockFree (pgrx_SpinLockRelease (fun _ => false) 0) 0 = true ∧
     pgrx_SpinLockFree (pgrx_SpinLockInit (fun _ => false) 0) 0 = true ∧
     pgx_SpinLockInit = SpinLockInit ∧ pgx_SpinLockAcquire = SpinLockAcquire ∧
     pgx_SpinLockRelease = SpinLockRelease ∧ pgx_SpinLockFree = SpinLockFree ∧
     pgrx_SpinLockInit = SpinLockInit ∧ pgrx_SpinLockAcquire = SpinLockAcquire ∧
     pgrx_SpinLockRelease = SpinLockRelease ∧ pgrx_SpinLockFree = SpinLockFree) :=
  ⟨rfl, spinlock_forwarding_preserves_lock_state (fun _ => false) 0 0 rfl⟩

/-- C7: the memory-context lookup returns the arena handle that the host's
allocator metadata records as owning the allocation, and performs no mutation —
the entire host state after the call is the state before it — for both
`pgx_GetMemoryContextChunk` and `pg_rs_bridge_GetMemoryContextChunk`. -/
theorem get_memory_context_chunk_pure_lookup (σ : HostState) (ptr : Nat) :
    (pgx_GetMemoryContextChunk σ ptr).1 = σ.chunkOwner ptr ∧
    (pgx_GetMemoryContextChunk σ ptr).2 = σ ∧
    (pg_rs_bridge_GetMemoryContextChunk σ ptr).1 = σ.chunkOwner ptr ∧
    (pg_rs_bridge_GetMemoryContextChunk σ ptr).2 = σ :=
  ⟨rfl, rfl, rfl, rfl⟩

/-- C8: the guard after `errfinish` on the older epoch path marks the
post-finish point unreachable exactly when `__builtin_constant_p(level)` holds
together with `level >= ERROR`; a compile-time-literal severity is marked
exactly when it is at or above the threshold; and since the severity reaching
the shim is a runtime function parameter — on which the builtin evaluates to
false — the guard never marks the post-finish point unreachable at that call
site, for any severity. -/
theorem post_finish_unreachable_guard_characterisation :
    (∀ constp level,
       postFinishMarkedUnreachable constp level = (constp && decide (ERROR ≤ level))) ∧
    (∀ level, postFinishMarkedUnreachable true level = decide (ERROR ≤ level)) ∧
    builtin_constant_p_runtime_level = false ∧
    (∀ level, postFinishMarkedUnreachable builtin_constant_p_runtime_level level = false) := by
  refine ⟨fun _ _ => rfl, fun level => ?_, rfl, fun _ => rfl⟩
  simp [postFinishMarkedUnreachable]

/-- C9 (code bug at pgx-pg-sys/cshim/pgx-cshim.c line 84): on the PG11/PG12
path compiled without `HAVE__BUILTIN_CONSTANT_P`, when both detail and context
are present, the call is `errcontext_msg(context)` — the caller-supplied context
is itself the format string, so its `%` directives are interpreted: context
`"100%% done"` is logged as `"100% done"`, not verbatim.  Every sibling call
site (here the `HAVE__BUILTIN_CONSTANT_P` path on the same input) passes it as
an argument to a fixed `"%s"` and logs it verbatim, and the message is passed
via `"%s"` verbatim even on the buggy path. -/
theorem errcontext_format_string_slip_eval :
    (pgx_ereport_pg12_noBCP
        (ErrorDescriptor.mk 19 0 "m" (some "d") (some "100%% done") "fn" "lib.rs" 7)).log.map
        LogRecord.context = [some "100% done"] ∧
    (pgx_ereport_pg12
        (ErrorDescriptor.mk 19 0 "m" (some "d") (some "100%% done") "fn" "lib.rs" 7)).log.map
        LogRecord.context = [some "100%% done"] ∧
    (some "100% done" : Option String) ≠ some "100%% done" ∧
    (pgx_ereport_pg12_noBCP
        (ErrorDescriptor.mk 19 0 "m" (some "d") (some "100%% done") "fn" "lib.rs" 7)).log.map
        LogRecord.message = ["m"] := by decide

/-- C10: the older six-argument surface (`pgx_ereport` of pgx-cshim/pgx-cshim.c
and `pg_rs_bridge_ereport`) offers no detail channel and folds the
caller-supplied provenance into the logged context text, which is exactly
`file:lineno:colno`; its location metadata is the shim's own fixed source
location.  The newer eight-argument surface instead passes the caller's
provenance to the host's location metadata and logs no context line for a
descriptor without one — so on the same descriptor the logged context text of
the two surfaces differs. -/
theorem old_surface_context_folds_provenance
    (level code : Int) (message file : String) (lineno colno : Int) :
    (pgx_ereport_v0 level code message file lineno colno).log =
      [{ level := level, code := code, message := message, detail := none,
         context := some (file ++ ":" ++ toString lineno ++ ":" ++ toString colno),
         locFile := some shimFile, locLine := some 29 }] ∧
    (pg_rs_bridge_ereport level code message file lineno colno).log =
      [{ level := level, code := code, message := message, detail := none,
         context := some (file ++ ":" ++ toString lineno ++ ":" ++ toString colno),
         locFile := some bridgeShimFile, locLine := some 22 }] ∧
    (pgx_ereport_pg13 (ErrorDescriptor.mk level code message none none "fn" file lineno)).log =
      [{ level := level, code := code, message := message, detail := none, context := none,
         locFile := some file, locLine := some lineno }] ∧
    (some (file ++ ":" ++ toString lineno ++ ":" ++ toString colno) : Option String) ≠ none := by
  refine ⟨?_, ?_, ?_, by simp⟩
  · simp [pgx_ereport_v0, errstart, errfinish_log, formatStr_s, formatStr_sdd]
  · simp [pg_rs_bridge_ereport, errstart, errfinish_log, formatStr_s, formatStr_sdd]
  · simp [pgx_ereport_pg13, errstart, errfinish_log, formatStr_s]

end PgrxShim
